import Mathlib

/-!
Shallow embedding of the resolver marketplace and bridge coordinator of the
ethdelhi repository (src/backend/src/resolver_service.py and
src/backend/src/bridge_coordinator.py).

Python floats (timestamps, reputation scores, auction weights) are modelled as
rationals, Python ints as Lean integers, and the in-process dictionaries as
functions into Option.  Fallible behaviour (an order or bid missing from a
dictionary, an escrow read that raises) is made explicit with Option / Except.
-/

namespace Ethdelhi

/-- Bridge transfer order, mirroring the BridgeOrder dataclass in
resolver_service.py. -/
structure BridgeOrder where
  transfer_id : String
  source_chain : String
  dest_chain : String
  token_address : String
  amount : Int
  recipient : String
  escrow_address : String
  dest_escrow_address : String
  secret_hash : String
  timeout : Int
  created_at : ℚ
  status : String := "pending"
deriving DecidableEq

/-- Resolver bid, mirroring the ResolverBid dataclass in resolver_service.py. -/
structure ResolverBid where
  transfer_id : String
  resolver_address : String
  bid_price : Int
  execution_time : Int
  gas_estimate : Int
  reputation_score : ℚ
  stake_amount : Int
  submitted_at : ℚ
deriving DecidableEq

/-- ResolverService.validate_order: an order passes iff it is within its
timeout window, the token address is non-empty with length 42, the amount is
positive, and the secret hash is non-empty with length 64 (the source checks
the length only, not the characters).  The Python try/except means validation
failures surface as a boolean, never as an exception; the embedding is total. -/
def validate_order (now : ℚ) (order : BridgeOrder) : Bool :=
  if order.created_at + (order.timeout : ℚ) < now then false
  else if order.token_address = "" ∨ order.token_address.length ≠ 42 then false
  else if order.amount ≤ 0 then false
  else if order.secret_hash = "" ∨ order.secret_hash.length ≠ 64 then false
  else true

/-- The weighted bid score computed inside
ResolverService.select_winning_resolver: 0.4 * priceScore + 0.4 * reputation
+ 0.2 * executionScore, with priceScore = 1 - bidPrice / (amount * 0.01) and
executionScore = 1 - executionTime / 300. -/
def total_score (order : BridgeOrder) (bid : ResolverBid) : ℚ :=
  let price_score : ℚ := 1 - (bid.bid_price : ℚ) / ((order.amount : ℚ) * (1 / 100))
  let reputation_score : ℚ := bid.reputation_score
  let execution_score : ℚ := 1 - (bid.execution_time : ℚ) / 300
  price_score * (4 / 10) + reputation_score * (4 / 10) + execution_score * (2 / 10)

/-- One iteration of the selection loop in select_winning_resolver: a bid
replaces the running best exactly when its score is strictly greater than the
running best score. -/
def select_step (order : BridgeOrder) (acc : Option ResolverBid × ℚ)
    (bid : ResolverBid) : Option ResolverBid × ℚ :=
  if acc.2 < total_score order bid then (some bid, total_score order bid) else acc

/-- The selection loop of select_winning_resolver over the bid list, with an
explicit accumulator (best_bid, best_score). -/
def select_go (order : BridgeOrder) (bids : List ResolverBid)
    (acc : Option ResolverBid × ℚ) : Option ResolverBid × ℚ :=
  bids.foldl (select_step order) acc

/-- ResolverService.select_winning_resolver: fold the bids with best_bid = None
and best_score = 0, returning the final best bid.  (The auction_progress value
computed in the source is never used and is omitted.) -/
def select_winning_resolver (order : BridgeOrder) (bids : List ResolverBid) :
    Option ResolverBid :=
  (select_go order bids (none, 0)).1

/-- The configuration values read in ResolverService.__init__, with the
defaults from the source. -/
structure ResolverConfig where
  dutch_auction_duration : Int := 300
  min_resolver_stake : Int := 1000
  resolver_reputation_threshold : ℚ := 7 / 10
deriving DecidableEq

/-- The mutable dictionaries of ResolverService, as functions into Option. -/
structure ResolverState where
  active_orders : String → Option BridgeOrder
  pending_bids : String → Option (List ResolverBid)
  resolver_reputation : String → Option ℚ
  resolver_stakes : String → Option Int

/-- ResolverService.submit_bid: returns false when the order is unknown, the
resolver reputation (default 0.0) is below the threshold, or the stake
(default 0) is below the minimum; otherwise it appends the constructed bid
(execution_time fixed at 60, submitted_at = now) to the order's bid list and
returns true.  Failures are boolean results, never exceptions. -/
def submit_bid (cfg : ResolverConfig) (st : ResolverState)
    (transfer_id resolver_address : String) (bid_price gas_estimate : Int)
    (now : ℚ) : Bool × ResolverState :=
  match st.active_orders transfer_id with
  | none => (false, st)
  | some _ =>
    let reputation := (st.resolver_reputation resolver_address).getD 0
    if reputation < cfg.resolver_reputation_threshold then (false, st)
    else
      let stake := (st.resolver_stakes resolver_address).getD 0
      if stake < cfg.min_resolver_stake then (false, st)
      else
        let bid : ResolverBid :=
          { transfer_id := transfer_id, resolver_address := resolver_address,
            bid_price := bid_price, execution_time := 60,
            gas_estimate := gas_estimate, reputation_score := reputation,
            stake_amount := stake, submitted_at := now }
        (true,
          { st with pending_bids := fun k =>
              if k = transfer_id then
                some ((st.pending_bids transfer_id).getD [] ++ [bid])
              else st.pending_bids k })

/-- ResolverService._update_resolver_reputation on a single reputation value:
min(current + 0.01, 1.0) on success, max(current - 0.05, 0.0) on failure. -/
def update_resolver_reputation (current_reputation : ℚ) (success : Bool) : ℚ :=
  if success then min (current_reputation + 1 / 100) 1
  else max (current_reputation - 5 / 100) 0

/-- The reputation dictionary update in _update_resolver_reputation: the
address's entry (default 0.5 when absent) is replaced by the updated value. -/
def update_reputation_map (m : String → Option ℚ) (resolver_address : String)
    (success : Bool) : String → Option ℚ :=
  fun a =>
    if a = resolver_address then
      some (update_resolver_reputation ((m resolver_address).getD (1 / 2)) success)
    else m a

/-- Escrow contract event, mirroring the EscrowEvent dataclass in
bridge_coordinator.py (the opaque data dict is modelled as a key/value list). -/
structure EscrowEvent where
  event_type : String
  transfer_id : String
  chain_id : String
  escrow_address : String
  block_number : Int
  transaction_hash : String
  timestamp : ℚ
  data : List (String × String)
deriving DecidableEq

/-- Synchronized cross-chain bridge state, mirroring the BridgeState dataclass
in bridge_coordinator.py. -/
structure BridgeState where
  transfer_id : String
  source_chain : String
  dest_chain : String
  source_escrow_state : String
  dest_escrow_state : String
  secret_revealed : Bool
  secret_hash : String
  last_sync : ℚ
  events : List EscrowEvent
deriving DecidableEq

/-- The stored coordination record sync_bridge_state fetches from the 0G
store (the fields it reads). -/
structure StoredCoord where
  source_chain : String
  dest_chain : String
  source_escrow_address : String
  dest_escrow_address : String
  secret_hash : String
deriving DecidableEq

/-- Payload of a successful escrow-state query (the dict returned by the
chain read inside _get_escrow_state). -/
structure EscrowInfo where
  status : String
  secret_revealed : Bool
  timeout : Int
  block_number : Int
deriving DecidableEq

/-- What _get_escrow_state hands back to sync_bridge_state: a status string,
and the secret_revealed key when present. -/
structure EscrowReadResult where
  status : String
  secret_revealed : Option Bool
deriving DecidableEq

/-- BridgeCoordinator._get_escrow_state: a successful chain query yields the
escrow payload; a failing query is caught and turned into a bare
dict with status = "error" (no secret_revealed key), never an exception. -/
def get_escrow_state (query : Except String EscrowInfo) : EscrowReadResult :=
  match query with
  | .ok s => { status := s.status, secret_revealed := some s.secret_revealed }
  | .error _ => { status := "error", secret_revealed := none }

/-- Records written to the 0G store by the coordinator paths modelled here:
the sync snapshot, the reveal record, the claim-execution trigger, and the
timeout record. -/
inductive StoreRec where
  | syncRec (transfer_id : String) (source_escrow_state dest_escrow_state : String)
      (secret_revealed : Bool) (t : ℚ)
  | revealRec (transfer_id : String) (secret : String) (t : ℚ)
  | triggerRec (transfer_id : String) (secret : String) (t : ℚ)
  | timeoutRec (transfer_id : String) (t : ℚ)
deriving DecidableEq

/-- Coordinator state for one transfer: the bridge_states entry for that
transfer plus the log of records pushed to the 0G store. -/
structure CoordState where
  bridge_state : Option BridgeState
  store_log : List StoreRec
deriving DecidableEq

/-- BridgeCoordinator.sync_bridge_state for one transfer.  When the stored
coordination record is missing it returns None and changes nothing.
Otherwise both escrow reads go through _get_escrow_state, a fresh BridgeState
is built (secret_revealed is the OR of the two read flags, each defaulting to
false when the key is absent), stored in bridge_states, and pushed to the 0G
store. -/
def sync_bridge_state (transfer_id : String) (stored : Option StoredCoord)
    (src_query dest_query : Except String EscrowInfo) (now : ℚ)
    (st : CoordState) : Option BridgeState × CoordState :=
  match stored with
  | none => (none, st)
  | some s =>
    let source_state := get_escrow_state src_query
    let dest_state := get_escrow_state dest_query
    let bs : BridgeState :=
      { transfer_id := transfer_id, source_chain := s.source_chain,
        dest_chain := s.dest_chain,
        source_escrow_state := source_state.status,
        dest_escrow_state := dest_state.status,
        secret_revealed := source_state.secret_revealed.getD false
          || dest_state.secret_revealed.getD false,
        secret_hash := s.secret_hash, last_sync := now, events := [] }
    (some bs,
      { bridge_state := some bs,
        store_log := st.store_log ++
          [StoreRec.syncRec transfer_id source_state.status dest_state.status
            bs.secret_revealed now] })

/-- Result of handle_secret_reveal: the boolean it returns and the updated
coordinator state. -/
structure RevealResult where
  ok : Bool
  state : CoordState
deriving DecidableEq

/-- BridgeCoordinator.handle_secret_reveal, parametrized by the SHA-256 hex
digest function.  Unknown transfer: false, unchanged.  Hash mismatch: false,
unchanged.  Already revealed: true, unchanged (no store write, no claim
trigger).  Otherwise secret_revealed and last_sync are updated, the reveal is
stored, and claim execution is triggered on both chains. -/
def handle_secret_reveal (sha256_hex : String → String) (transfer_id : String)
    (secret : String) (now : ℚ) (st : CoordState) : RevealResult :=
  match st.bridge_state with
  | none => { ok := false, state := st }
  | some bs =>
    if sha256_hex secret ≠ bs.secret_hash then { ok := false, state := st }
    else if bs.secret_revealed then { ok := true, state := st }
    else
      { ok := true,
        state :=
          { bridge_state := some { bs with secret_revealed := true, last_sync := now },
            store_log := st.store_log ++
              [StoreRec.revealRec transfer_id secret now,
               StoreRec.triggerRec transfer_id secret now] } }

/-- BridgeCoordinator._handle_timeout: when the transfer's state is known,
both escrow sides become "expired" and a timeout record is stored. -/
def handle_timeout (transfer_id : String) (now : ℚ) (st : CoordState) :
    CoordState :=
  match st.bridge_state with
  | none => st
  | some bs =>
    { bridge_state := some { bs with source_escrow_state := "expired",
                                     dest_escrow_state := "expired" },
      store_log := st.store_log ++ [StoreRec.timeoutRec transfer_id now] }

/-- BridgeCoordinator._handle_escrow_event: claimed/refunded events update the
side matching the event's chain_id; expired events run the timeout path; the
transfer's last_sync is refreshed.  An unknown transfer raises a KeyError
which the source catches, leaving the state unchanged. -/
def handle_escrow_event (ev : EscrowEvent) (now : ℚ) (st : CoordState) :
    CoordState :=
  match st.bridge_state with
  | none => st
  | some bs =>
    let st1 : CoordState :=
      if ev.event_type = "claimed" then
        if ev.chain_id = bs.source_chain then
          { st with bridge_state := some { bs with source_escrow_state := "claimed" } }
        else
          { st with bridge_state := some { bs with dest_escrow_state := "claimed" } }
      else if ev.event_type = "refunded" then
        if ev.chain_id = bs.source_chain then
          { st with bridge_state := some { bs with source_escrow_state := "refunded" } }
        else
          { st with bridge_state := some { bs with dest_escrow_state := "refunded" } }
      else if ev.event_type = "expired" then handle_timeout ev.transfer_id now st
      else st
    match st1.bridge_state with
    | none => st1
    | some bs1 => { st1 with bridge_state := some { bs1 with last_sync := now } }

/-- One coordinator operation on a transfer's state: a state sync (with its
store read and the two escrow read outcomes), a secret reveal, or an escrow
event. -/
inductive CoordOp where
  | syncOp (stored : Option StoredCoord)
      (src_query dest_query : Except String EscrowInfo) (now : ℚ)
  | revealOp (secret : String) (now : ℚ)
  | eventOp (ev : EscrowEvent) (now : ℚ)

/-- Whether a coordinator operation is a state sync. -/
def CoordOp.isSyncOp : CoordOp → Bool
  | .syncOp _ _ _ _ => true
  | _ => false

/-- Apply one coordinator operation to the transfer's state. -/
def apply_op (sha256_hex : String → String) (transfer_id : String)
    (op : CoordOp) (st : CoordState) : CoordState :=
  match op with
  | .syncOp stored sq dq now => (sync_bridge_state transfer_id stored sq dq now st).2
  | .revealOp secret now => (handle_secret_reveal sha256_hex transfer_id secret now st).state
  | .eventOp ev now => handle_escrow_event ev now st

/-- Apply a sequence of coordinator operations, oldest first. -/
def apply_ops (sha256_hex : String → String) (transfer_id : String)
    (ops : List CoordOp) (st : CoordState) : CoordState :=
  ops.foldl (fun s op => apply_op sha256_hex transfer_id op s) st

/-- The secret_revealed flag of a transfer's tracked bridge state (false when
the transfer is unknown). -/
def revealed_flag (st : CoordState) : Bool :=
  match st.bridge_state with
  | none => false
  | some bs => bs.secret_revealed

/-- Whether an escrow read outcome is a failure. -/
def query_failed : Except String EscrowInfo → Bool
  | .error _ => true
  | .ok _ => false

/-- Modelled from the spec wording of claim C8: a well-formed SHA-256 hex
digest is a string of exactly 64 lowercase hexadecimal digits.  Used only to
compare the spec's wording with validate_order, which checks the length
alone. -/
def well_formed_hex_digest (s : String) : Bool :=
  s.length = 64 && s.toList.all (fun c => ("0123456789abcdef".toList).contains c)

/-! Concrete instances used by counterexamples and witnesses. -/

/-- The order of the spec's auction scenario: amount 1_000_000, timeout 3600. -/
def c1Order : BridgeOrder :=
  { transfer_id := "t1", source_chain := "ethereum", dest_chain := "solana",
    token_address := "0x0000000000000000000000000000000000000001",
    amount := 1000000, recipient := "alice", escrow_address := "esc-src",
    dest_escrow_address := "esc-dst",
    secret_hash := "0000000000000000000000000000000000000000000000000000000000000000",
    timeout := 3600, created_at := 0 }

/-- Scenario bid A: price 1000, reputation 0.9. -/
def c1BidA : ResolverBid :=
  { transfer_id := "t1", resolver_address := "resolverA", bid_price := 1000,
    execution_time := 60, gas_estimate := 21000, reputation_score := 9 / 10,
    stake_amount := 2000, submitted_at := 1 }

/-- Scenario bid B: price 500, reputation 0.5. -/
def c1BidB : ResolverBid :=
  { transfer_id := "t1", resolver_address := "resolverB", bid_price := 500,
    execution_time := 60, gas_estimate := 21000, reputation_score := 5 / 10,
    stake_amount := 2000, submitted_at := 2 }

/-- A bid whose weighted score is exactly 0: price = amount * 0.01, zero
reputation, execution time 300. -/
def c1ZeroBid : ResolverBid :=
  { transfer_id := "t1", resolver_address := "resolverZ", bid_price := 10000,
    execution_time := 300, gas_estimate := 21000, reputation_score := 0,
    stake_amount := 2000, submitted_at := 1 }

/-- A second order with all bids scoring nonpositively. -/
def c10Order : BridgeOrder :=
  { transfer_id := "t2", source_chain := "ethereum", dest_chain := "solana",
    token_address := "0x0000000000000000000000000000000000000002",
    amount := 500000, recipient := "bob", escrow_address := "esc-src2",
    dest_escrow_address := "esc-dst2",
    secret_hash := "1111111111111111111111111111111111111111111111111111111111111111",
    timeout := 3600, created_at := 0 }

/-- A bid on c10Order with price = amount * 0.01, zero reputation and
execution time 300, so its weighted score is 0. -/
def c10Bid : ResolverBid :=
  { transfer_id := "t2", resolver_address := "resolverY", bid_price := 5000,
    execution_time := 300, gas_estimate := 21000, reputation_score := 0,
    stake_amount := 2000, submitted_at := 3 }

/-- The resolver configuration with the source's default values. -/
def default_config : ResolverConfig := {}

/-- An order whose status is already "completed" (as execute_bridge leaves it,
still present in active_orders). -/
def c4Order : BridgeOrder :=
  { transfer_id := "t4", source_chain := "ethereum", dest_chain := "solana",
    token_address := "0x0000000000000000000000000000000000000004",
    amount := 100000, recipient := "carol", escrow_address := "esc-src4",
    dest_escrow_address := "esc-dst4",
    secret_hash := "2222222222222222222222222222222222222222222222222222222222222222",
    timeout := 3600, created_at := 0, status := "completed" }

/-- Resolver state tracking c4Order with one well-reputed, well-staked
resolver. -/
def c4St : ResolverState :=
  { active_orders := fun k => if k = "t4" then some c4Order else none,
    pending_bids := fun _ => none,
    resolver_reputation := fun k => if k = "res4" then some (9 / 10) else none,
    resolver_stakes := fun k => if k = "res4" then some 2000 else none }

/-- A pending order used for the repeated-bid scenario. -/
def c5Order : BridgeOrder :=
  { transfer_id := "t5", source_chain := "ethereum", dest_chain := "solana",
    token_address := "0x0000000000000000000000000000000000000005",
    amount := 100000, recipient := "dave", escrow_address := "esc-src5",
    dest_escrow_address := "esc-dst5",
    secret_hash := "3333333333333333333333333333333333333333333333333333333333333333",
    timeout := 3600, created_at := 0 }

/-- Resolver state tracking c5Order with one eligible resolver. -/
def c5St : ResolverState :=
  { active_orders := fun k => if k = "t5" then some c5Order else none,
    pending_bids := fun _ => none,
    resolver_reputation := fun k => if k = "res5" then some (9 / 10) else none,
    resolver_stakes := fun k => if k = "res5" then some 2000 else none }

/-- An order whose secret hash has the right length but is not hexadecimal. -/
def c8Order : BridgeOrder :=
  { transfer_id := "t8", source_chain := "ethereum", dest_chain := "solana",
    token_address := "0x0000000000000000000000000000000000000008",
    amount := 1000, recipient := "erin", escrow_address := "esc-src8",
    dest_escrow_address := "esc-dst8",
    secret_hash := "zzzzzzzzzzzzzzzzzzzzzzzzzzzzzzzzzzzzzzzzzzzzzzzzzzzzzzzzzzzzzzzz",
    timeout := 3600, created_at := 0 }

/-- First bid submission by res5 for t5. -/
def c5Step1 : Bool × ResolverState :=
  submit_bid default_config c5St "t5" "res5" 100 21000 5

/-- Second bid submission by the same resolver for the same order. -/
def c5Step2 : Bool × ResolverState :=
  submit_bid default_config c5Step1.2 "t5" "res5" 200 21000 6

/-- A concrete stand-in for the SHA-256 hex digest parameter, used by the
idempotent-reveal witness. -/
def c6Hash : String → String := fun s => s

/-- A tracked bridge state with an unrevealed secret, matching the reveal
scenario. -/
def c6Bs : BridgeState :=
  { transfer_id := "t6", source_chain := "ethereum", dest_chain := "solana",
    source_escrow_state := "pending", dest_escrow_state := "pending",
    secret_revealed := false, secret_hash := "abc123", last_sync := 0,
    events := [] }

/-- Coordinator state tracking c6Bs. -/
def c6St : CoordState := { bridge_state := some c6Bs, store_log := [] }

/-- Concrete hash stand-in for the wrong-secret witness. -/
def c7Hash : String → String := fun s => s

/-- A tracked bridge state whose committed hash no provided secret matches. -/
def c7Bs : BridgeState :=
  { transfer_id := "t7", source_chain := "ethereum", dest_chain := "solana",
    source_escrow_state := "pending", dest_escrow_state := "pending",
    secret_revealed := false, secret_hash := "abc123hashed", last_sync := 0,
    events := [] }

/-- Coordinator state tracking c7Bs. -/
def c7St : CoordState := { bridge_state := some c7Bs, store_log := [] }

/-- Stored coordination record for the failing-escrow-read scenario. -/
def c2Stored : StoredCoord :=
  { source_chain := "ethereum", dest_chain := "solana",
    source_escrow_address := "esc-src2c", dest_escrow_address := "esc-dst2c",
    secret_hash := "4444444444444444444444444444444444444444444444444444444444444444" }

/-- The previously synchronized bridge state for that transfer. -/
def c2Prev : BridgeState :=
  { transfer_id := "t2c", source_chain := "ethereum", dest_chain := "solana",
    source_escrow_state := "pending", dest_escrow_state := "pending",
    secret_revealed := true,
    secret_hash := "4444444444444444444444444444444444444444444444444444444444444444",
    last_sync := 1, events := [] }

/-- Coordinator state holding the previous bridge state. -/
def c2St : CoordState := { bridge_state := some c2Prev, store_log := [] }

/-- A successful escrow read payload (the source's mock values). -/
def c2Info : EscrowInfo :=
  { status := "pending", secret_revealed := false, timeout := 3600,
    block_number := 12345 }

/-- A sync whose source-escrow read fails while the destination read
succeeds. -/
def c2Sync : Option BridgeState × CoordState :=
  sync_bridge_state "t2c" (some c2Stored) (Except.error "rpc unreachable")
    (Except.ok c2Info) 7 c2St

/-- Concrete hash stand-in for the monotonicity scenario. -/
def c3Hash : String → String := fun s => s

/-- A bridge state whose secret is already revealed. -/
def c3Bs : BridgeState :=
  { transfer_id := "t3", source_chain := "ethereum", dest_chain := "solana",
    source_escrow_state := "pending", dest_escrow_state := "pending",
    secret_revealed := true,
    secret_hash := "5555555555555555555555555555555555555555555555555555555555555555",
    last_sync := 2, events := [] }

/-- Coordinator state tracking c3Bs. -/
def c3St : CoordState := { bridge_state := some c3Bs, store_log := [] }

/-- Stored coordination record for that transfer. -/
def c3Stored : StoredCoord :=
  { source_chain := "ethereum", dest_chain := "solana",
    source_escrow_address := "esc-src3", dest_escrow_address := "esc-dst3",
    secret_hash := "5555555555555555555555555555555555555555555555555555555555555555" }

/-- An escrow read payload reporting the secret as not revealed (what the
source's mocked chain read always returns). -/
def c3Info : EscrowInfo :=
  { status := "pending", secret_revealed := false, timeout := 3600,
    block_number := 12345 }

/-- A claimed event on the source chain for the monotonicity witness. -/
def c3Event : EscrowEvent :=
  { event_type := "claimed", transfer_id := "t3", chain_id := "ethereum",
    escrow_address := "esc-src3", block_number := 100,
    transaction_hash := "0xabc", timestamp := 4, data := [] }

/-! Theorems. -/

/-- Characterization of the selection fold: the final best score dominates the
initial score and every bid's score, and either nothing beat the initial
accumulator, or the result is the first bid attaining the final score (all
earlier bids score strictly below it). -/
theorem select_go_spec (order : BridgeOrder) (bids : List ResolverBid)
    (b0 : Option ResolverBid) (s0 : ℚ) :
    s0 ≤ (select_go order bids (b0, s0)).2 ∧
    (∀ b ∈ bids, total_score order b ≤ (select_go order bids (b0, s0)).2) ∧
    (((select_go order bids (b0, s0)).2 = s0 ∧ (select_go order bids (b0, s0)).1 = b0) ∨
      ∃ l1 w l2, bids = l1 ++ w :: l2 ∧
        (select_go order bids (b0, s0)).1 = some w ∧
        total_score order w = (select_go order bids (b0, s0)).2 ∧
        s0 < (select_go order bids (b0, s0)).2 ∧
        ∀ b ∈ l1, total_score order b < (select_go order bids (b0, s0)).2) := by
  induction bids generalizing b0 s0 with
  | nil => simp [select_go]
  | cons x xs ih =>
    by_cases hx : s0 < total_score order x
    · have hs : select_go order (x :: xs) (b0, s0)
          = select_go order xs (some x, total_score order x) := by
        simp [select_go, List.foldl, select_step, hx]
      rw [hs]
      obtain ⟨h1, h2, h3⟩ := ih (some x) (total_score order x)
      refine ⟨le_trans (le_of_lt hx) h1, ?_, ?_⟩
      · intro b hb
        rcases List.mem_cons.mp hb with rfl | hb
        · exact h1
        · exact h2 b hb
      · rcases h3 with ⟨he, hbid⟩ | ⟨l1, w, l2, hdec, hw1, hw2, hlt, hall⟩
        · refine Or.inr ⟨[], x, xs, rfl, hbid, ?_, ?_, ?_⟩
          · exact he.symm
          · rw [he]; exact hx
          · intro b hb; simp at hb
        · refine Or.inr ⟨x :: l1, w, l2, by rw [hdec]; rfl, hw1, hw2,
            lt_trans hx hlt, ?_⟩
          intro b hb
          rcases List.mem_cons.mp hb with rfl | hb
          · exact hlt
          · exact hall b hb
    · have hs : select_go order (x :: xs) (b0, s0)
          = select_go order xs (b0, s0) := by
        simp [select_go, List.foldl, select_step, hx]
      rw [hs]
      obtain ⟨h1, h2, h3⟩ := ih b0 s0
      refine ⟨h1, ?_, ?_⟩
      · intro b hb
        rcases List.mem_cons.mp hb with rfl | hb
        · exact le_trans (not_lt.mp hx) h1
        · exact h2 b hb
      · rcases h3 with ⟨he, hbid⟩ | ⟨l1, w, l2, hdec, hw1, hw2, hlt, hall⟩
        · exact Or.inl ⟨he, hbid⟩
        · refine Or.inr ⟨x :: l1, w, l2, by rw [hdec]; rfl, hw1, hw2, hlt, ?_⟩
          intro b hb
          rcases List.mem_cons.mp hb with rfl | hb
          · exact lt_of_le_of_lt (not_lt.mp hx) hlt
          · exact hall b hb

/-- Claim C1, counterexample: a non-empty bid set whose only bid (necessarily
the strictly highest-scoring one) scores 0 makes select_winning_resolver
return none rather than that bid, refuting the claim as universally stated. -/
theorem c1_counterexample :
    [c1ZeroBid] ≠ ([] : List ResolverBid) ∧
    select_winning_resolver c1Order [c1ZeroBid] = none := by
  constructor
  · simp
  · norm_num [select_winning_resolver, select_go, select_step, total_score,
      c1Order, c1ZeroBid, List.foldl]

/-- Claim C1 (amended): when the bid list is ordered by submission time and
some bid scores strictly positively, select_winning_resolver returns a bid of
maximal weighted score whose submission time is earliest among the bids tied
at that score; and in the spec scenario (amount 1_000_000, bids
{price 1000, rep 0.9} and {price 500, rep 0.5}) bid A wins. -/
theorem c1_winner_selection :
    (∀ (order : BridgeOrder) (bids : List ResolverBid),
      bids.Pairwise (fun a b => a.submitted_at ≤ b.submitted_at) →
      (∃ b ∈ bids, 0 < total_score order b) →
      ∃ w, select_winning_resolver order bids = some w ∧ w ∈ bids ∧
        (∀ b ∈ bids, total_score order b ≤ total_score order w) ∧
        (∀ b ∈ bids, total_score order b = total_score order w →
          w.submitted_at ≤ b.submitted_at)) ∧
    select_winning_resolver c1Order [c1BidA, c1BidB] = some c1BidA := by
  constructor
  · intro order bids hsorted hpos
    obtain ⟨h1, h2, h3⟩ := select_go_spec order bids none 0
    obtain ⟨b, hb, hbpos⟩ := hpos
    have hr2 : 0 < (select_go order bids (none, 0)).2 :=
      lt_of_lt_of_le hbpos (h2 b hb)
    rcases h3 with ⟨he, _⟩ | ⟨l1, w, l2, hdec, hw1, hw2, _, hall⟩
    · rw [he] at hr2; exact absurd hr2 (lt_irrefl 0)
    · refine ⟨w, hw1, ?_, ?_, ?_⟩
      · rw [hdec]; exact List.mem_append_right _ (List.mem_cons_self w l2)
      · intro c hc; rw [hw2]; exact h2 c hc
      · intro c hc hscore
        rw [hdec] at hsorted hc
        obtain ⟨p1, p2, h12⟩ := List.pairwise_append.mp hsorted
        rcases List.mem_append.mp hc with hcl1 | hcwl2
        · exfalso
          have hlt := hall c hcl1
          rw [hw2] at hscore
          exact absurd hscore (ne_of_lt hlt)
        · rcases List.mem_cons.mp hcwl2 with rfl | hcl2
          · exact le_refl _
          · exact (List.pairwise_cons.mp p2).1 c hcl2
  · norm_num [select_winning_resolver, select_go, select_step, total_score,
      c1Order, c1BidA, c1BidB, List.foldl]

/-- Witness for C1: the general statement instantiated on the spec scenario
bid list, whose sortedness and positive-score hypotheses hold concretely. -/
theorem c1_winner_selection_witness :
    ([c1BidA, c1BidB] : List ResolverBid).Pairwise
      (fun a b => a.submitted_at ≤ b.submitted_at) ∧
    ∃ w, select_winning_resolver c1Order [c1BidA, c1BidB] = some w ∧
      w ∈ [c1BidA, c1BidB] ∧
      (∀ b ∈ [c1BidA, c1BidB], total_score c1Order b ≤ total_score c1Order w) ∧
      (∀ b ∈ [c1BidA, c1BidB],
        total_score c1Order b = total_score c1Order w →
          w.submitted_at ≤ b.submitted_at) := by
  have hsorted : ([c1BidA, c1BidB] : List ResolverBid).Pairwise
      (fun a b => a.submitted_at ≤ b.submitted_at) := by
    simp [c1BidA, c1BidB]
  refine ⟨hsorted, c1_winner_selection.1 c1Order [c1BidA, c1BidB] hsorted ?_⟩
  refine ⟨c1BidA, by simp, ?_⟩
  norm_num [total_score, c1Order, c1BidA]

/-- Claim C10: when every bid for an order has weighted score at most 0,
select_winning_resolver returns none even though bids exist, because each
score is compared strictly against a running best initialized to 0. -/
theorem c10_nonpositive_scores_no_winner (order : BridgeOrder)
    (bids : List ResolverBid) (hne : bids ≠ [])
    (hall : ∀ b ∈ bids, total_score order b ≤ 0) :
    select_winning_resolver order bids = none := by
  obtain ⟨h1, h2, h3⟩ := select_go_spec order bids none 0
  rcases h3 with ⟨_, hbid⟩ | ⟨l1, w, l2, hdec, hw1, hw2, hlt, _⟩
  · exact hbid
  · exfalso
    have hw_mem : w ∈ bids := by
      rw [hdec]; exact List.mem_append_right _ (List.mem_cons_self w l2)
    have hle := hall w hw_mem
    rw [hw2] at hle
    exact absurd hlt (not_lt.mpr hle)

/-- Witness for C10: a concrete non-empty bid set (price = amount * 0.01 with
zero reputation) on which the selector returns none. -/
theorem c10_nonpositive_scores_no_winner_witness :
    ([c10Bid] : List ResolverBid) ≠ [] ∧
    select_winning_resolver c10Order [c10Bid] = none := by
  refine ⟨by simp, c10_nonpositive_scores_no_winner c10Order [c10Bid] (by simp) ?_⟩
  intro b hb
  rcases List.mem_cons.mp hb with rfl | hb
  · norm_num [total_score, c10Order, c10Bid]
  · simp at hb

/-- If submit_bid returns true, the order exists, the reputation (default 0)
meets the threshold, and the stake (default 0) meets the minimum — and
conversely. -/
theorem submit_bid_true_iff (cfg : ResolverConfig) (st : ResolverState)
    (tid addr : String) (price gas : Int) (now : ℚ) :
    (submit_bid cfg st tid addr price gas now).1 = true ↔
      (st.active_orders tid).isSome = true ∧
      cfg.resolver_reputation_threshold ≤ (st.resolver_reputation addr).getD 0 ∧
      cfg.min_resolver_stake ≤ (st.resolver_stakes addr).getD 0 := by
  unfold submit_bid
  cases h : st.active_orders tid with
  | none => simp [h]
  | some o =>
    simp only [h, Option.isSome_some, true_and]
    split_ifs with h1 h2
    · simp [not_le.mpr h1]
    · simp [not_le.mpr h2]
    · simp [not_lt.mp h1, not_lt.mp h2]

/-- When submit_bid returns false the resolver state is unchanged. -/
theorem submit_bid_false_state (cfg : ResolverConfig) (st : ResolverState)
    (tid addr : String) (price gas : Int) (now : ℚ)
    (h : (submit_bid cfg st tid addr price gas now).1 = false) :
    (submit_bid cfg st tid addr price gas now).2 = st := by
  unfold submit_bid at h ⊢
  cases ho : st.active_orders tid with
  | none => simp [ho]
  | some o =>
    simp only [ho] at h ⊢
    split_ifs with h1 h2
    · rfl
    · rfl
    · simp [h1, h2] at h

/-- When submit_bid returns true it appends the freshly constructed bid to the
order's list and leaves every other piece of state unchanged. -/
theorem submit_bid_true_state (cfg : ResolverConfig) (st : ResolverState)
    (tid addr : String) (price gas : Int) (now : ℚ)
    (h : (submit_bid cfg st tid addr price gas now).1 = true) :
    ∃ bid : ResolverBid,
      bid.transfer_id = tid ∧ bid.resolver_address = addr ∧
      bid.bid_price = price ∧ bid.gas_estimate = gas ∧
      bid.execution_time = 60 ∧ bid.submitted_at = now ∧
      (submit_bid cfg st tid addr price gas now).2.pending_bids tid =
        some ((st.pending_bids tid).getD [] ++ [bid]) ∧
      (∀ k, k ≠ tid →
        (submit_bid cfg st tid addr price gas now).2.pending_bids k =
          st.pending_bids k) ∧
      (submit_bid cfg st tid addr price gas now).2.active_orders =
        st.active_orders ∧
      (submit_bid cfg st tid addr price gas now).2.resolver_reputation =
        st.resolver_reputation ∧
      (submit_bid cfg st tid addr price gas now).2.resolver_stakes =
        st.resolver_stakes := by
  obtain ⟨hso, hrep, hstake⟩ :=
    (submit_bid_true_iff cfg st tid addr price gas now).mp h
  unfold submit_bid
  cases ho : st.active_orders tid with
  | none => rw [ho] at hso; simp at hso
  | some o =>
    simp only [ho]
    split_ifs with h1 h2
    · exact absurd h1 (not_lt.mpr hrep)
    · exact absurd h2 (not_lt.mpr hstake)
    · refine ⟨ResolverBid.mk tid addr price 60 gas
          ((st.resolver_reputation addr).getD 0)
          ((st.resolver_stakes addr).getD 0) now,
        rfl, rfl, rfl, rfl, rfl, rfl, ?_, ?_, rfl, rfl, rfl⟩
      · simp
      · intro k hk
        simp [hk]

/-- Claim C4, counterexample: submit_bid accepts a bid on an order whose
status is "completed" (neither pending nor bidding) as long as the order is
still tracked and the resolver clears the reputation and stake bars, so the
claimed status precondition is not enforced. -/
theorem c4_counterexample :
    c4St.active_orders "t4" = some c4Order ∧
    c4Order.status = "completed" ∧
    c4Order.status ≠ "pending" ∧ c4Order.status ≠ "bidding" ∧
    (submit_bid default_config c4St "t4" "res4" 100 21000 5).1 = true := by
  refine ⟨by simp [c4St], rfl, by simp [c4Order], by simp [c4Order], ?_⟩
  norm_num [submit_bid, c4St, default_config]

/-- Claim C4 (amended): submit_bid returns true exactly when the order is
tracked, the resolver's reputation (default 0.0) reaches the configured
threshold, and its stake (default 0) reaches the configured minimum — the
order's status is not checked; on success the bid is stored (appended for the
order), on failure the state is unchanged and the failure is a boolean result,
never an exception (the embedding is a total function). -/
theorem c4_submit_bid_preconditions :
    ∀ (cfg : ResolverConfig) (st : ResolverState) (tid addr : String)
      (price gas : Int) (now : ℚ),
      ((submit_bid cfg st tid addr price gas now).1 = true ↔
        (st.active_orders tid).isSome = true ∧
        cfg.resolver_reputation_threshold ≤ (st.resolver_reputation addr).getD 0 ∧
        cfg.min_resolver_stake ≤ (st.resolver_stakes addr).getD 0) ∧
      ((submit_bid cfg st tid addr price gas now).1 = true →
        ∃ bid : ResolverBid, bid.resolver_address = addr ∧
          bid.submitted_at = now ∧
          (submit_bid cfg st tid addr price gas now).2.pending_bids tid =
            some ((st.pending_bids tid).getD [] ++ [bid])) ∧
      ((submit_bid cfg st tid addr price gas now).1 = false →
        (submit_bid cfg st tid addr price gas now).2 = st) := by
  intro cfg st tid addr price gas now
  refine ⟨submit_bid_true_iff cfg st tid addr price gas now, ?_,
    submit_bid_false_state cfg st tid addr price gas now⟩
  intro h
  obtain ⟨bid, _, ha, _, _, _, hs, hp, _⟩ :=
    submit_bid_true_state cfg st tid addr price gas now h
  exact ⟨bid, ha, hs, hp⟩

/-- Witness for C4: the amended statement applied to a concrete state, with a
succeeding submission (eligible resolver) and a failing one (unknown
resolver, so default reputation 0 fails the threshold) that leaves the state
untouched. -/
theorem c4_submit_bid_preconditions_witness :
    (submit_bid default_config c4St "t4" "res4" 100 21000 5).1 = true ∧
    (∃ bid : ResolverBid, bid.resolver_address = "res4" ∧
      bid.submitted_at = 5 ∧
      (submit_bid default_config c4St "t4" "res4" 100 21000 5).2.pending_bids "t4" =
        some ((c4St.pending_bids "t4").getD [] ++ [bid])) ∧
    (submit_bid default_config c4St "t4" "res9" 100 21000 5).2 = c4St := by
  have h1 : (submit_bid default_config c4St "t4" "res4" 100 21000 5).1 = true := by
    apply (c4_submit_bid_preconditions default_config c4St "t4" "res4" 100 21000 5).1.mpr
    refine ⟨by simp [c4St], ?_, ?_⟩
    · norm_num [c4St, default_config]
    · norm_num [c4St, default_config]
  refine ⟨h1,
    (c4_submit_bid_preconditions default_config c4St "t4" "res4" 100 21000 5).2.1 h1,
    (c4_submit_bid_preconditions default_config c4St "t4" "res9" 100 21000 5).2.2 ?_⟩
  simp [submit_bid, c4St, default_config]

/-- Claim C5, counterexample: after two successful submissions by the same
resolver for the same order, the stored bid list holds two bids for that
resolver, not exactly one — bids are appended, not keyed last-write-wins. -/
theorem c5_counterexample :
    c5Step1.1 = true ∧ c5Step2.1 = true ∧
    ((c5Step2.2.pending_bids "t5").getD []).length = 2 ∧
    (∀ b ∈ (c5Step2.2.pending_bids "t5").getD [], b.resolver_address = "res5") := by
  refine ⟨?_, ?_, ?_, ?_⟩ <;>
    norm_num [c5Step1, c5Step2, submit_bid, c5St, default_config]

/-- Claim C5 (amended): two successful submit_bid calls by the same resolver
for the same order append both bids to the order's list in submission order;
both are retained (the most recent one last), with no per-resolver
deduplication. -/
theorem c5_bids_append (cfg : ResolverConfig) (st : ResolverState)
    (tid addr : String) (p1 g1 : Int) (n1 : ℚ) (p2 g2 : Int) (n2 : ℚ)
    (h1 : (submit_bid cfg st tid addr p1 g1 n1).1 = true)
    (h2 : (submit_bid cfg (submit_bid cfg st tid addr p1 g1 n1).2
      tid addr p2 g2 n2).1 = true) :
    ∃ b1 b2 : ResolverBid,
      b1.resolver_address = addr ∧ b2.resolver_address = addr ∧
      b1.submitted_at = n1 ∧ b2.submitted_at = n2 ∧
      (submit_bid cfg (submit_bid cfg st tid addr p1 g1 n1).2
          tid addr p2 g2 n2).2.pending_bids tid =
        some ((st.pending_bids tid).getD [] ++ [b1, b2]) := by
  obtain ⟨b1, _, ha1, _, _, _, hs1, hp1, _⟩ :=
    submit_bid_true_state cfg st tid addr p1 g1 n1 h1
  obtain ⟨b2, _, ha2, _, _, _, hs2, hp2, _⟩ :=
    submit_bid_true_state cfg (submit_bid cfg st tid addr p1 g1 n1).2
      tid addr p2 g2 n2 h2
  refine ⟨b1, b2, ha1, ha2, hs1, hs2, ?_⟩
  rw [hp2, hp1]
  simp

/-- Witness for C5: the amended statement on the concrete two-submission
run. -/
theorem c5_bids_append_witness :
    ∃ b1 b2 : ResolverBid,
      b1.resolver_address = "res5" ∧ b2.resolver_address = "res5" ∧
      b1.submitted_at = 5 ∧ b2.submitted_at = 6 ∧
      c5Step2.2.pending_bids "t5" =
        some ((c5St.pending_bids "t5").getD [] ++ [b1, b2]) := by
  apply c5_bids_append default_config c5St "t5" "res5" 100 21000 5 200 21000 6
  · norm_num [submit_bid, c5St, default_config]
  · norm_num [submit_bid, c5St, default_config]

/-- Claim C8, counterexample: validate_order accepts an order whose secret
hash is 64 characters of "z" — length is checked but hexadecimal content is
not, so acceptance is not equivalent to the hash being a well-formed hex
digest. -/
theorem c8_counterexample :
    validate_order 0 c8Order = true ∧
    well_formed_hex_digest c8Order.secret_hash = false := by
  constructor
  · norm_num [validate_order, c8Order]
    decide
  · simp [well_formed_hex_digest, c8Order]

/-- Claim C8 (amended): validate_order accepts exactly when the amount is
positive, now is within created_at + timeout, the token address is non-empty
of length 42, and the secret hash is non-empty of length 64 (character
content is not inspected); it never raises, being a total boolean check. -/
theorem c8_validate_iff (now : ℚ) (order : BridgeOrder) :
    validate_order now order = true ↔
      (0 < order.amount ∧ now ≤ order.created_at + (order.timeout : ℚ) ∧
        order.token_address ≠ "" ∧ order.token_address.length = 42 ∧
        order.secret_hash ≠ "" ∧ order.secret_hash.length = 64) := by
  unfold validate_order
  split_ifs with h1 h2 h3 h4
  · simp [not_le.mpr h1]
  · push_neg at h1
    constructor
    · intro h; simp at h
    · rintro ⟨_, _, hte, htl, _⟩
      rcases h2 with h2 | h2
      · exact absurd h2 hte
      · exact absurd htl h2
  · push_neg at h1 h2
    constructor
    · intro h; simp at h
    · rintro ⟨ha, _⟩
      exact absurd ha (not_lt.mpr h3)
  · push_neg at h1 h2
    constructor
    · intro h; simp at h
    · rintro ⟨_, _, _, _, hse, hsl⟩
      rcases h4 with h4 | h4
      · exact absurd h4 hse
      · exact absurd hsl h4
  · push_neg at h1 h2 h4
    simp only [true_iff]
    exact ⟨not_le.mp h3, h1, h2.1, h2.2, h4.1, h4.2⟩

/-- Reputation update on a success: min(current + 0.01, 1.0). -/
theorem update_rep_succ (r : ℚ) :
    update_resolver_reputation r true = min (r + 1 / 100) 1 := by
  simp [update_resolver_reputation]

/-- Reputation update on a failure: max(current - 0.05, 0.0). -/
theorem update_rep_fail (r : ℚ) :
    update_resolver_reputation r false = max (r - 5 / 100) 0 := by
  simp [update_resolver_reputation]

/-- Claim C9: the reputation update adds 0.01 on success and subtracts 0.05 on
failure with clamping, a success followed by a failure never increases a
nonnegative reputation (one failure outweighs one success), and any sequence
of updates keeps a reputation that started in [0,1] inside [0,1]. -/
theorem c9_reputation_update :
    (∀ r : ℚ, update_resolver_reputation r true = min (r + 1 / 100) 1) ∧
    (∀ r : ℚ, update_resolver_reputation r false = max (r - 5 / 100) 0) ∧
    (∀ r : ℚ, 0 ≤ r →
      update_resolver_reputation (update_resolver_reputation r true) false ≤ r) ∧
    (∀ (l : List Bool) (r : ℚ), 0 ≤ r → r ≤ 1 →
      0 ≤ l.foldl update_resolver_reputation r ∧
      l.foldl update_resolver_reputation r ≤ 1) := by
  refine ⟨update_rep_succ, update_rep_fail, ?_, ?_⟩
  · intro r hr
    rw [update_rep_succ, update_rep_fail]
    have h1 : min (r + 1 / 100) 1 ≤ r + 1 / 100 := min_le_left _ _
    apply max_le
    · linarith
    · exact hr
  · intro l
    induction l with
    | nil => intro r h0 h1; exact ⟨h0, h1⟩
    | cons b bs ih =>
      intro r h0 h1
      have hstep : 0 ≤ update_resolver_reputation r b ∧
          update_resolver_reputation r b ≤ 1 := by
        cases b
        · rw [update_rep_fail]
          exact ⟨le_max_right _ _, max_le (by linarith) (by norm_num)⟩
        · rw [update_rep_succ]
          exact ⟨le_min (by linarith) (by norm_num), min_le_right _ _⟩
      simpa [List.foldl] using ih (update_resolver_reputation r b) hstep.1 hstep.2

/-- Witness for C9: the update evaluated at the default reputation 0.5 and on
the concrete update sequence [success, failure]. -/
theorem c9_reputation_update_witness :
    update_resolver_reputation (1 / 2) true = min (1 / 2 + 1 / 100) 1 ∧
    update_resolver_reputation (1 / 2) false = max (1 / 2 - 5 / 100) 0 ∧
    update_resolver_reputation (update_resolver_reputation (1 / 2) true) false ≤ 1 / 2 ∧
    (0 ≤ [true, false].foldl update_resolver_reputation (1 / 2) ∧
      [true, false].foldl update_resolver_reputation (1 / 2) ≤ 1) :=
  ⟨c9_reputation_update.1 (1 / 2), c9_reputation_update.2.1 (1 / 2),
   c9_reputation_update.2.2.1 (1 / 2) (by norm_num),
   c9_reputation_update.2.2.2 [true, false] (1 / 2) (by norm_num) (by norm_num)⟩

/-- Claim C6: handle_secret_reveal is idempotent for a valid secret — with a
known bridge state whose stored hash matches the hash of the secret, two
consecutive calls both return success and the second call leaves the
coordinator state (tracked bridge state and store log, hence also the claim
trigger) exactly as the first call left it. -/
theorem c6_reveal_idempotent (sha256_hex : String → String)
    (tid secret : String) (n1 n2 : ℚ) (st : CoordState) (bs : BridgeState)
    (hbs : st.bridge_state = some bs)
    (hhash : sha256_hex secret = bs.secret_hash) :
    (handle_secret_reveal sha256_hex tid secret n1 st).ok = true ∧
    (handle_secret_reveal sha256_hex tid secret n2
      (handle_secret_reveal sha256_hex tid secret n1 st).state).ok = true ∧
    (handle_secret_reveal sha256_hex tid secret n2
      (handle_secret_reveal sha256_hex tid secret n1 st).state).state =
      (handle_secret_reveal sha256_hex tid secret n1 st).state := by
  cases hrev : bs.secret_revealed
  · simp [handle_secret_reveal, hbs, hhash, hrev]
  · simp [handle_secret_reveal, hbs, hhash, hrev]

/-- Witness for C6: the double reveal evaluated on a concrete state whose
stored hash matches the revealed secret. -/
theorem c6_reveal_idempotent_witness :
    (handle_secret_reveal c6Hash "t6" "abc123" 1 c6St).ok = true ∧
    (handle_secret_reveal c6Hash "t6" "abc123" 2
      (handle_secret_reveal c6Hash "t6" "abc123" 1 c6St).state).ok = true ∧
    (handle_secret_reveal c6Hash "t6" "abc123" 2
      (handle_secret_reveal c6Hash "t6" "abc123" 1 c6St).state).state =
      (handle_secret_reveal c6Hash "t6" "abc123" 1 c6St).state :=
  c6_reveal_idempotent c6Hash "t6" "abc123" 1 2 c6St c6Bs rfl rfl

/-- Claim C7: with an unrevealed secret, a reveal whose hash does not match
the stored secret hash returns failure and leaves the coordinator state
untouched — secret_revealed stays false and no claim execution is
triggered (no store-log append). -/
theorem c7_wrong_secret_rejected (sha256_hex : String → String)
    (tid secret : String) (n : ℚ) (st : CoordState) (bs : BridgeState)
    (hbs : st.bridge_state = some bs)
    (hrev : bs.secret_revealed = false)
    (hhash : sha256_hex secret ≠ bs.secret_hash) :
    (handle_secret_reveal sha256_hex tid secret n st).ok = false ∧
    (handle_secret_reveal sha256_hex tid secret n st).state = st ∧
    revealed_flag (handle_secret_reveal sha256_hex tid secret n st).state = false := by
  have h : handle_secret_reveal sha256_hex tid secret n st =
      { ok := false, state := st } := by
    unfold handle_secret_reveal
    rw [hbs]
    simp [hhash]
  rw [h]
  exact ⟨rfl, rfl, by simp [revealed_flag, hbs, hrev]⟩

/-- Witness for C7: the spec scenario — reveal called with the wrong secret
"wrong" against a stored hash of "abc123". -/
theorem c7_wrong_secret_rejected_witness :
    (handle_secret_reveal c7Hash "t7" "wrong" 3 c7St).ok = false ∧
    (handle_secret_reveal c7Hash "t7" "wrong" 3 c7St).state = c7St ∧
    revealed_flag (handle_secret_reveal c7Hash "t7" "wrong" 3 c7St).state = false :=
  c7_wrong_secret_rejected c7Hash "t7" "wrong" 3 c7St c7Bs rfl rfl (by decide)

/-- Claim C2, counterexample: with a failing source-escrow read, sync does not
fail as a whole — it builds and persists a fresh BridgeState carrying
status "error", replacing the previously stored one, and pushes it to the
store. -/
theorem c2_counterexample :
    c2St.bridge_state = some c2Prev ∧
    c2Sync.2.bridge_state ≠ some c2Prev ∧
    (∃ bs : BridgeState, c2Sync.1 = some bs ∧
      c2Sync.2.bridge_state = some bs ∧ bs.source_escrow_state = "error") ∧
    c2Sync.2.store_log ≠ c2St.store_log := by
  refine ⟨rfl, ?_, ⟨_, rfl, rfl, rfl⟩, ?_⟩
  · intro h
    simp [c2Sync, sync_bridge_state, get_escrow_state, c2St, c2Prev] at h
  · intro h
    simp [c2Sync, sync_bridge_state, get_escrow_state, c2St] at h

/-- Claim C2 (amended): a failing escrow read does not abort the sync —
_get_escrow_state swallows the failure into a status of "error" and
sync_bridge_state persists a fresh BridgeState carrying that status (locally
and to the store), replacing the previous one; the sync returns None and
changes nothing only when the stored coordination record is missing. -/
theorem c2_sync_error_behaviour :
    (∀ (tid : String) (s : StoredCoord) (sq dq : Except String EscrowInfo)
      (now : ℚ) (st : CoordState),
      query_failed sq = true ∨ query_failed dq = true →
      ∃ bs : BridgeState,
        (sync_bridge_state tid (some s) sq dq now st).1 = some bs ∧
        (sync_bridge_state tid (some s) sq dq now st).2.bridge_state = some bs ∧
        (bs.source_escrow_state = "error" ∨ bs.dest_escrow_state = "error") ∧
        (sync_bridge_state tid (some s) sq dq now st).2.store_log =
          st.store_log ++ [StoreRec.syncRec tid bs.source_escrow_state
            bs.dest_escrow_state bs.secret_revealed now]) ∧
    (∀ (tid : String) (sq dq : Except String EscrowInfo) (now : ℚ)
      (st : CoordState),
      sync_bridge_state tid none sq dq now st = (none, st)) := by
  constructor
  · intro tid s sq dq now st hfail
    refine ⟨_, rfl, rfl, ?_, rfl⟩
    rcases hfail with h | h
    · left
      cases sq with
      | ok v => simp [query_failed] at h
      | error e => rfl
    · right
      cases dq with
      | ok v => simp [query_failed] at h
      | error e => rfl
  · intro tid sq dq now st
    rfl

/-- Witness for C2: the amended statement on a concrete failing source read
and on a missing stored record. -/
theorem c2_sync_error_behaviour_witness :
    (∃ bs : BridgeState, c2Sync.1 = some bs ∧
      c2Sync.2.bridge_state = some bs ∧
      (bs.source_escrow_state = "error" ∨ bs.dest_escrow_state = "error") ∧
      c2Sync.2.store_log = c2St.store_log ++ [StoreRec.syncRec "t2c"
        bs.source_escrow_state bs.dest_escrow_state bs.secret_revealed 7]) ∧
    sync_bridge_state "t2c" none (Except.error "rpc unreachable")
      (Except.ok c2Info) 7 c2St = (none, c2St) :=
  ⟨c2_sync_error_behaviour.1 "t2c" c2Stored (Except.error "rpc unreachable")
      (Except.ok c2Info) 7 c2St (Or.inl rfl),
   c2_sync_error_behaviour.2 "t2c" (Except.error "rpc unreachable")
      (Except.ok c2Info) 7 c2St⟩

/-- A secret reveal never lowers a true secret_revealed flag. -/
theorem reveal_preserves_revealed (sha256_hex : String → String)
    (tid secret : String) (now : ℚ) (st : CoordState)
    (h : revealed_flag st = true) :
    revealed_flag (handle_secret_reveal sha256_hex tid secret now st).state = true := by
  cases hbs : st.bridge_state with
  | none => simp [revealed_flag, hbs] at h
  | some bs =>
    have hrev : bs.secret_revealed = true := by
      simpa [revealed_flag, hbs] using h
    by_cases hm : sha256_hex secret ≠ bs.secret_hash
    · simp [handle_secret_reveal, hbs, hm, revealed_flag, hrev]
    · simp [handle_secret_reveal, hbs, hm, hrev, revealed_flag]

/-- The timeout path never lowers a true secret_revealed flag. -/
theorem timeout_preserves_revealed (tid : String) (now : ℚ) (st : CoordState)
    (h : revealed_flag st = true) :
    revealed_flag (handle_timeout tid now st) = true := by
  cases hbs : st.bridge_state with
  | none => simp [revealed_flag, hbs] at h
  | some bs =>
    have hrev : bs.secret_revealed = true := by
      simpa [revealed_flag, hbs] using h
    simp [handle_timeout, hbs, revealed_flag, hrev]

/-- Escrow-event handling never lowers a true secret_revealed flag. -/
theorem event_preserves_revealed (ev : EscrowEvent) (now : ℚ) (st : CoordState)
    (h : revealed_flag st = true) :
    revealed_flag (handle_escrow_event ev now st) = true := by
  cases hbs : st.bridge_state with
  | none => simp [revealed_flag, hbs] at h
  | some bs =>
    have hrev : bs.secret_revealed = true := by
      simpa [revealed_flag, hbs] using h
    unfold handle_escrow_event
    rw [hbs]
    by_cases h1 : ev.event_type = "claimed" <;>
      by_cases h2 : ev.event_type = "refunded" <;>
        by_cases h3 : ev.event_type = "expired" <;>
          by_cases hc : ev.chain_id = bs.source_chain <;>
            simp [h1, h2, h3, hc, revealed_flag, hrev, handle_timeout, hbs]

/-- Claim C3, counterexample: starting from a state whose secret is revealed,
one sync_bridge_state call whose escrow reads report the secret as not
revealed resets secret_revealed from true back to false, breaking
monotonicity over arbitrary coordinator operation sequences. -/
theorem c3_counterexample :
    revealed_flag c3St = true ∧
    revealed_flag (apply_op c3Hash "t3"
      (CoordOp.syncOp (some c3Stored) (Except.ok c3Info) (Except.ok c3Info) 9)
      c3St) = false := by
  exact ⟨rfl, rfl⟩

/-- Claim C3 (amended): secret_revealed is monotonic across
handle_secret_reveal and escrow-event handling — any sequence of coordinator
operations that contains no sync keeps a true flag true; sync_bridge_state,
by contrast, recomputes the flag from the two escrow reads alone and can
reset it to false. -/
theorem c3_monotonic_without_sync :
    ∀ (sha256_hex : String → String) (tid : String) (ops : List CoordOp)
      (st : CoordState),
      (∀ op ∈ ops, op.isSyncOp = false) →
      revealed_flag st = true →
      revealed_flag (apply_ops sha256_hex tid ops st) = true := by
  intro sha256_hex tid ops
  induction ops with
  | nil => intro st _ h; exact h
  | cons op rest ih =>
    intro st hops h
    have hop := hops op (List.mem_cons_self op rest)
    have hrest : ∀ o ∈ rest, o.isSyncOp = false :=
      fun o ho => hops o (List.mem_cons_of_mem op ho)
    have hstep : revealed_flag (apply_op sha256_hex tid op st) = true := by
      cases op with
      | syncOp stored sq dq now => simp [CoordOp.isSyncOp] at hop
      | revealOp secret now =>
        exact reveal_preserves_revealed sha256_hex tid secret now st h
      | eventOp ev now =>
        exact event_preserves_revealed ev now st h
    simpa [apply_ops, List.foldl] using
      ih (apply_op sha256_hex tid op st) hrest hstep

/-- Witness for C3: a concrete sync-free operation sequence (a reveal and a
claimed event) applied to a revealed state keeps the flag true. -/
theorem c3_monotonic_without_sync_witness :
    (∀ op ∈ [CoordOp.revealOp "x" 5, CoordOp.eventOp c3Event 6],
      op.isSyncOp = false) ∧
    revealed_flag c3St = true ∧
    revealed_flag (apply_ops c3Hash "t3"
      [CoordOp.revealOp "x" 5, CoordOp.eventOp c3Event 6] c3St) = true := by
  refine ⟨?_, rfl, c3_monotonic_without_sync c3Hash "t3"
    [CoordOp.revealOp "x" 5, CoordOp.eventOp c3Event 6] c3St ?_ rfl⟩
  · intro op hop
    rcases List.mem_cons.mp hop with rfl | hop
    · rfl
    · rcases List.mem_cons.mp hop with rfl | hop
      · rfl
      · simp at hop
  · intro op hop
    rcases List.mem_cons.mp hop with rfl | hop
    · rfl
    · rcases List.mem_cons.mp hop with rfl | hop
      · rfl
      · simp at hop

end Ethdelhi
